import Mathlib

/-!
Shallow embedding of the core of the cloud-security-ml repository:
feature extraction (src/ingestion/extract_features.py), the statistical
scorer wrapper (src/ml_model/test_model.py), the intent analyzer
(src/llm/context_analyzer.py), and the hybrid fusion engine
(src/api/hybrid_analyzer.py).

Modelling conventions:
- Python numbers (ints and floats) are embedded as exact rationals.
- Fallible Python code is embedded in the Except monad; the error string
  only identifies the kind of exception, not the exact Python message.
- Python string operations are re-implemented structurally over List Char
  so that all definitions evaluate by kernel reduction; case mapping is
  the ASCII fragment, which covers every string the code compares.
- The pretrained classifier artifact (models/random_forest_v1.pkl) and the
  remote generative provider are not part of the repository; they enter as
  explicit function parameters of the definitions that call them.
-/

namespace CloudSecML

/-- Nested configuration values as produced by the upstream HCL parser:
the Python shapes str / bool / number / list / dict. -/
inductive Val : Type where
  | str (s : String)
  | bool (b : Bool)
  | num (q : ℚ)
  | list (xs : List Val)
  | map (kvs : List (String × Val))

/-- Python truthiness of a value. -/
def Val.truthy : Val → Bool
  | .str s => !s.isEmpty
  | .bool b => b
  | .num q => q != 0
  | .list xs => !xs.isEmpty
  | .map kvs => !kvs.isEmpty

/-- Python truthiness of an optional value (None is falsy). -/
def truthyOpt : Option Val → Bool
  | none => false
  | some v => v.truthy

/-- Python dict.get with a default, on an association list with unique keys. -/
def getD (kvs : List (String × Val)) (k : String) (d : Val) : Val :=
  match kvs.lookup k with
  | some v => v
  | none => d

/-- Python attribute access value.get(key): defined on dicts, raises
AttributeError on any other shape (in particular on lists). -/
def Val.pyGetOpt : Val → String → Except String (Option Val)
  | .map kvs, k => .ok (kvs.lookup k)
  | .list _, _ => .error "AttributeError: list object has no attribute get"
  | _, _ => .error "AttributeError: object has no attribute get"

/-- Substring containment test on character lists, matching the Python
expression needle in haystack for strings. -/
def containsSub (needle : List Char) : List Char → Bool
  | [] => needle.isEmpty
  | c :: rest => needle.isPrefixOf (c :: rest) || containsSub needle rest

/-- The Python membership operator needle in v for a string needle:
substring test on strings, element equality on lists, key membership on
dicts, TypeError on numbers and booleans. -/
def pyInV (needle : String) : Val → Except String Bool
  | .str s => .ok (containsSub needle.data s.data)
  | .list xs => .ok (xs.any fun v => match v with | .str t => t == needle | _ => false)
  | .map kvs => .ok (kvs.any fun kv => kv.1 == needle)
  | _ => .error "TypeError: argument is not iterable"

/-- Python value.lower(): defined on strings only (ASCII case mapping). -/
def Val.pyLower : Val → Except String String
  | .str s => .ok (String.mk (s.data.map Char.toLower))
  | _ => .error "AttributeError: object has no attribute lower"

/-- One parsed resource: {type, name, properties}. -/
structure Resource where
  type : String
  name : String
  properties : List (String × Val)

/-- The feature dictionary built by extract_security_features: all ten keys
are set on every successful run, in this insertion order. -/
structure Features where
  public_access : ℚ
  encryption_enabled : ℚ
  versioning_enabled : ℚ
  logging_enabled : ℚ
  sensitive_naming : ℚ
  has_tags : ℚ
  mfa_delete_enabled : ℚ
  has_lifecycle_policy : ℚ
  risky_cors : ℚ
  tag_quality : ℚ
deriving DecidableEq

/-- The lazy generator any(star in rule.get(allowed_origins, []) for rule in rules)
from the risky_cors feature: short-circuits on the first wildcard hit. -/
def corsWildcard : List Val → Except String Bool
  | [] => .ok false
  | r :: rs => do
    let origins ← r.pyGetOpt "allowed_origins"
    let b ← pyInV "*" (origins.getD (.list []))
    if b then pure true else corsWildcard rs

/-- sum(1 for tag in required_tags if tag in tags), evaluated left to right. -/
def countIn (tags : Val) : List String → Except String Nat
  | [] => .ok 0
  | t :: ts => do
    let b ← pyInV t tags
    let n ← countIn tags ts
    pure (if b then n + 1 else n)

/-- The sensitive-name keyword set of extract_security_features. -/
def sensitive_keywords : List String :=
  ["customer", "user", "personal", "data", "backup", "prod"]

/-- extract_security_features (the second, effective definition of the name
in src/ingestion/extract_features.py, lines 51-106; an earlier definition at
lines 1-49 of the same file is shadowed by it). Reads the ten features in
source order; versioning.get(...) raises when the versioning property is a
list, because this definition dropped the list normalization that the
shadowed definition carried under the comment FIX list case. -/
def extract_security_features (resource : Resource) : Except String Features := do
  let properties := resource.properties
  let acl := getD properties "acl" (.str "private")
  let pub ← pyInV "public" acl
  let has_encryption := properties.any fun kv => kv.1 == "server_side_encryption_configuration"
  let versioning := getD properties "versioning" (.map [])
  let ven ← versioning.pyGetOpt "enabled"
  let logging := getD properties "logging" (.map [])
  let bucket := getD properties "bucket" (.str "")
  let bucket_name ← bucket.pyLower
  let sensitive := sensitive_keywords.any fun kw => containsSub kw.data bucket_name.data
  let tags := getD properties "tags" (.map [])
  let mfa ← versioning.pyGetOpt "mfa_delete"
  let lifecycle := getD properties "lifecycle_rule" (.list [])
  let cors := getD properties "cors_rule" (.list [])
  let wildcard ←
    if cors.truthy then
      corsWildcard (match cors with | .list xs => xs | v => [v])
    else pure false
  let tq ←
    if tags.truthy then do
      let n ← countIn tags ["Environment", "Owner", "Purpose"]
      pure ((n : ℚ) / 3)
    else pure (0 : ℚ)
  pure {
    public_access := if pub then 1 else 0
    encryption_enabled := if has_encryption then 1 else 0
    versioning_enabled := if truthyOpt ven then 1 else 0
    logging_enabled := if logging.truthy then 1 else 0
    sensitive_naming := if sensitive then 1 else 0
    has_tags := if tags.truthy then 1 else 0
    mfa_delete_enabled := if (mfa.getD (.bool false)).truthy then 1 else 0
    has_lifecycle_policy := if lifecycle.truthy then 1 else 0
    risky_cors := if wildcard then 1 else 0
    tag_quality := tq }

/-- The feature dictionary as a key-value list in its Python insertion order. -/
def featuresToDict (f : Features) : List (String × ℚ) :=
  [("public_access", f.public_access),
   ("encryption_enabled", f.encryption_enabled),
   ("versioning_enabled", f.versioning_enabled),
   ("logging_enabled", f.logging_enabled),
   ("sensitive_naming", f.sensitive_naming),
   ("has_tags", f.has_tags),
   ("mfa_delete_enabled", f.mfa_delete_enabled),
   ("has_lifecycle_policy", f.has_lifecycle_policy),
   ("risky_cors", f.risky_cors),
   ("tag_quality", f.tag_quality)]

/-- The pretrained binary classifier loaded from models/random_forest_v1.pkl
(the artifact is outside the repository, so the model enters as a parameter).
It consumes the single DataFrame row, a cell being none when the source dict
lacked that column (a NaN cell in pandas), and returns the predicted class
and the class-probability pair [prob_safe, prob_risky]. -/
structure Model where
  predict : List (Option ℚ) → Nat
  predict_proba : List (Option ℚ) → ℚ × ℚ

/-- The fixed column ordering of src/ml_model/test_model.py. -/
def feature_columns : List String :=
  ["public_access", "encryption_enabled", "versioning_enabled",
   "logging_enabled", "sensitive_naming", "has_tags"]

/-- The result dictionary of predict_risk. -/
structure StatisticalAssessment where
  decision : String
  risk_score : ℚ
  confidence : ℚ
deriving DecidableEq

/-- predict_risk from src/ml_model/test_model.py: pd.DataFrame([features],
columns=feature_columns) projects the input dict onto exactly the six base
columns (extra keys are dropped, missing keys become NaN cells), then the
model predicts on that row. -/
def predict_risk (model : Model) (features : List (String × ℚ)) : StatisticalAssessment :=
  let X : List (Option ℚ) := feature_columns.map fun c => features.lookup c
  let prediction := model.predict X
  let probability := model.predict_proba X
  let risk_score := probability.2
  { decision := if prediction == 1 then "RISKY" else "SAFE"
    risk_score := risk_score
    confidence := max probability.1 probability.2 }

/-- The structured result of the intent analyzer (ContextAnalyzer.analyze
and its parser _parse_response). -/
structure IntentAssessment where
  intent : String
  purpose : String
  llm_risk_score : ℚ
  concerns : List String
  reasoning : String
  confidence : ℚ
deriving DecidableEq

/-- The whitespace set stripped by the Python str.strip() default
(the ASCII fragment; the code never feeds it exotic unicode spaces). -/
def pySpace (c : Char) : Bool :=
  c == ' ' || c == '\t' || c == '\n' || c == '\r' ||
  c == Char.ofNat 11 || c == Char.ofNat 12

/-- Python str.strip(): drop leading and trailing whitespace. -/
def pyStrip (l : List Char) : List Char :=
  ((l.dropWhile pySpace).reverse.dropWhile pySpace).reverse

/-- Python text.split(sep) for a one-character separator: splits at every
occurrence, so the empty text yields one empty piece. -/
def splitOnChar (c : Char) : List Char → List (List Char)
  | [] => [[]]
  | x :: xs =>
    if x == c then [] :: splitOnChar c xs
    else
      match splitOnChar c xs with
      | [] => [[x]]
      | l :: ls => (x :: l) :: ls

/-- Python line.upper() (ASCII case mapping). -/
def lineUpper (l : List Char) : List Char := l.map Char.toUpper

/-- Python line.split(colon, 1)[1].strip(). Every call site is guarded by a
prefix check that guarantees a colon, so the no-colon branch is unreachable
and may return the empty string. -/
def lineValue (l : List Char) : List Char :=
  pyStrip (afterFirstColon l)
where
  afterFirstColon : List Char → List Char
    | [] => []
    | c :: rest => if c == ':' then rest else afterFirstColon rest

/-- response_text.strip().split(newline): the line list scanned by
_parse_response. -/
def pyLines (text : String) : List (List Char) :=
  splitOnChar '\n' (pyStrip text.data)

/-- One iteration of the parsing loop of _parse_response
(src/llm/context_analyzer.py lines 165-210): a case-insensitive line-prefix
dispatch that updates exactly one field of the running result. The numeric
parses call the Python float builtin, which enters as the parameter pf. -/
def parseLine (pf : String → Option ℚ) (r : IntentAssessment) (line0 : List Char) :
    IntentAssessment :=
  let line := pyStrip line0
  if "INTENT:".data.isPrefixOf (lineUpper line) then
    let intent_text := (lineValue line).map Char.toLower
    if containsSub "intentional".data intent_text then { r with intent := "intentional" }
    else if containsSub "accidental".data intent_text then { r with intent := "accidental" }
    else r
  else if "PURPOSE:".data.isPrefixOf (lineUpper line) then
    { r with purpose := String.mk (lineValue line) }
  else if "RISK_SCORE:".data.isPrefixOf (lineUpper line) then
    match pf (String.mk (lineValue line)) with
    | some score => { r with llm_risk_score := max 0 (min 1 score) }
    | none => { r with llm_risk_score := 1/2 }
  else if "CONCERNS:".data.isPrefixOf (lineUpper line) then
    let concerns_text := lineValue line
    if String.mk (concerns_text.map Char.toLower) ≠ "none" then
      { r with concerns :=
          (((splitOnChar '|' concerns_text).map pyStrip).filter
            (fun c => !c.isEmpty)).map String.mk }
    else r
  else if "REASONING:".data.isPrefixOf (lineUpper line) then
    { r with reasoning := String.mk (lineValue line) }
  else if "CONFIDENCE:".data.isPrefixOf (lineUpper line) then
    match pf (String.mk (lineValue line)) with
    | some conf => { r with confidence := max 0 (min 1 conf) }
    | none => { r with confidence := 7/10 }
  else r

/-- The initial result dictionary of _parse_response: every field at its
documented default, reasoning initialized to the whole response text. -/
def parseInit (response_text : String) : IntentAssessment :=
  { intent := "unknown", purpose := "", llm_risk_score := 1/2,
    concerns := [], reasoning := response_text, confidence := 7/10 }

/-- _parse_response from src/llm/context_analyzer.py: best-effort line-based
parsing of the provider reply, folding parseLine over the stripped lines. -/
def _parse_response (pf : String → Option ℚ) (response_text : String) : IntentAssessment :=
  (pyLines response_text).foldl (parseLine pf) (parseInit response_text)

/-- ContextAnalyzer.analyze from src/llm/context_analyzer.py, lines 61-84:
the outcome of the provider call self.llm.generate(prompt, ...) enters as the
parameter generate; a successful reply is parsed, any raised exception is
caught and converted into the fixed fallback assessment whose reasoning
carries the error text. -/
def ContextAnalyzer.analyze (pf : String → Option ℚ) (generate : Except String String) :
    IntentAssessment :=
  match generate with
  | .ok response => _parse_response pf response
  | .error e =>
    { intent := "unknown",
      purpose := "Could not analyze (LLM unavailable)",
      llm_risk_score := 1/2,
      reasoning := "LLM analysis failed: " ++ e,
      concerns := ["Unable to perform AI analysis"],
      confidence := 3/10 }

/-- The fields of the LLM result dictionary that HybridAnalyzer reads
(intent, llm_risk_score, reasoning, concerns). -/
structure LLMResult where
  intent : String
  llm_risk_score : ℚ
  reasoning : String
  concerns : List String
deriving DecidableEq

/-- HybridAnalyzer._fuse_scores (src/api/hybrid_analyzer.py lines 68-81):
intent-keyed fixed weight table, then the weighted sum. -/
def _fuse_scores (ml_score llm_score : ℚ) (llm_result : LLMResult) : ℚ :=
  let intent := llm_result.intent
  let w : ℚ × ℚ :=
    if intent = "INTENTIONAL" then (0.4, 0.6)
    else if intent = "ACCIDENTAL" then (0.7, 0.3)
    else (0.6, 0.4)
  ml_score * w.1 + llm_score * w.2

/-- HybridAnalyzer._make_decision (src/api/hybrid_analyzer.py lines 83-93). -/
def _make_decision (score : ℚ) (intent : String) : String :=
  if score > 0.75 then "BLOCK"
  else if score > 0.45 then (if intent = "ACCIDENTAL" then "BLOCK" else "WARN")
  else if score > 0.25 then "WARN"
  else "ALLOW"

/-- HybridAnalyzer._list_problems (src/api/hybrid_analyzer.py lines 95-106):
three flag checks, with a no-issues marker when none fires. The feature
values are Python ints, truthy iff nonzero. -/
def _list_problems (features : Features) : List String :=
  let problems : List String :=
    (if features.public_access ≠ 0 then ["🔓 Public access enabled"] else []) ++
    (if features.encryption_enabled = 0 then ["🔒 No encryption"] else []) ++
    (if features.sensitive_naming ≠ 0 then ["⚠️ Sensitive naming pattern"] else [])
  if problems.isEmpty then ["✅ No major issues"] else problems

/-- identify_problems from src/api/analyzer.py lines 122-145: the six-check
problem list of the statistical-only path. -/
def identify_problems (features : Features) : List String :=
  let problems : List String :=
    (if features.public_access ≠ 0 then ["🔓 Public access enabled"] else []) ++
    (if features.encryption_enabled = 0 then ["🔒 No encryption configured"] else []) ++
    (if features.versioning_enabled = 0 then ["📦 Versioning not enabled"] else []) ++
    (if features.logging_enabled = 0 then ["📝 Logging not enabled"] else []) ++
    (if features.sensitive_naming ≠ 0 then ["⚠️ Sensitive data naming pattern detected"] else []) ++
    (if features.has_tags = 0 then ["🏷️ No tags configured"] else [])
  if problems.isEmpty then ["✅ No obvious problems detected"] else problems

/-- Python round(x, 2): round to two decimals, ties to even (floats are
modelled as exact rationals). -/
def round2 (q : ℚ) : ℚ :=
  (roundHalfEven (q * 100) : ℚ) / 100
where
  roundHalfEven (x : ℚ) : ℤ :=
    let f := ⌊x⌋
    if x - f < 1/2 then f
    else if x - f > 1/2 then f + 1
    else if f % 2 = 0 then f else f + 1

/-- The result dictionary of HybridAnalyzer.analyze on the success path. -/
structure FusedResult where
  version : String
  decision : String
  risk_score : ℚ
  ml_score : ℚ
  llm_score : ℚ
  intent : String
  reasoning : String
  concerns : List String
  problems : List String
  resource_type : String
  resource_name : String
deriving DecidableEq

/-- HybridAnalyzer.analyze returns either the error dictionary or the fused
result dictionary. -/
inductive AnalyzeOutput where
  | errorResult (message : String)
  | result (r : FusedResult)
deriving DecidableEq

/-- HybridAnalyzer.analyze (src/api/hybrid_analyzer.py lines 21-66). The
terraform code is written to a temp file and re-parsed; the parse outcome
for that text enters as the parameter parsed (none models a parser failure,
and the resources list models parsed[resources]). The classifier and the
remote LLM call self.llm.analyze_intent enter as parameters. An uncaught
exception from feature extraction propagates as Except.error. -/
def HybridAnalyzer.analyze (model : Model)
    (llm : String → String → Features → LLMResult)
    (terraform_code : String)
    (parsed : Option (List Resource)) : Except String AnalyzeOutput :=
  match parsed with
  | none => .ok (.errorResult "No resources found")
  | some [] => .ok (.errorResult "No resources found")
  | some (resource :: _) => do
    let features ← extract_security_features resource
    let ml_result := predict_risk model (featuresToDict features)
    let ml_score := ml_result.risk_score
    let llm_result := llm terraform_code resource.name features
    let llm_score := llm_result.llm_risk_score
    let final_score := _fuse_scores ml_score llm_score llm_result
    let decision := _make_decision final_score llm_result.intent
    pure (.result {
      version := "2.0"
      decision := decision
      risk_score := round2 final_score
      ml_score := round2 ml_score
      llm_score := round2 llm_score
      intent := llm_result.intent
      reasoning := llm_result.reasoning
      concerns := llm_result.concerns
      problems := _list_problems features
      resource_type := resource.type
      resource_name := resource.name })

/-- A line that the parsing loop recognizes as an INTENT line carrying one
of the two intent keywords (the only shape that updates the intent field). -/
def intentRecognized (line0 : List Char) : Bool :=
  "INTENT:".data.isPrefixOf (lineUpper (pyStrip line0)) &&
    (containsSub "intentional".data ((lineValue (pyStrip line0)).map Char.toLower) ||
     containsSub "accidental".data ((lineValue (pyStrip line0)).map Char.toLower))

/-- A line whose RISK_SCORE value the float parser accepts (the only shape
that can move llm_risk_score away from its 0.5 default). -/
def riskScoreParsed (pf : String → Option ℚ) (line0 : List Char) : Bool :=
  "RISK_SCORE:".data.isPrefixOf (lineUpper (pyStrip line0)) &&
    (pf (String.mk (lineValue (pyStrip line0)))).isSome

/-- A line whose CONFIDENCE value the float parser accepts (the only shape
that can move confidence away from its 0.7 default). -/
def confidenceParsed (pf : String → Option ℚ) (line0 : List Char) : Bool :=
  "CONFIDENCE:".data.isPrefixOf (lineUpper (pyStrip line0)) &&
    (pf (String.mk (lineValue (pyStrip line0)))).isSome

/-- A resource whose versioning property has the list-of-blocks shape that
the upstream HCL parser produces. -/
def versioningListResource : Resource :=
  { type := "aws_s3_bucket", name := "data",
    properties := [("versioning", Val.list [Val.map [("enabled", Val.bool true)]])] }

/-- A concrete classifier standing in for the six-feature artifact. -/
def constModel : Model :=
  { predict := fun _ => 1, predict_proba := fun _ => (1/10, 9/10) }

/-- The six base features of a risky configuration, as a feature dict. -/
def baseSixDict : List (String × ℚ) :=
  [("public_access", 1), ("encryption_enabled", 0), ("versioning_enabled", 0),
   ("logging_enabled", 0), ("sensitive_naming", 1), ("has_tags", 0)]

/-- The same configuration extended with the four additional features. -/
def extendedTenDict : List (String × ℚ) :=
  baseSixDict ++
    [("mfa_delete_enabled", 0), ("has_lifecycle_policy", 0),
     ("risky_cors", 1), ("tag_quality", 1/3)]

/-- A feature vector whose only unmet controls are versioning, logging and
tags — none of which the fused problems list checks. -/
def fvOnlyVersioningMissing : Features :=
  { public_access := 0, encryption_enabled := 1, versioning_enabled := 0,
    logging_enabled := 0, sensitive_naming := 0, has_tags := 0,
    mfa_delete_enabled := 0, has_lifecycle_policy := 0, risky_cors := 0,
    tag_quality := 0 }

/-! ### Theorems -/

/-- A weighted sum with nonnegative weights summing to one lies between the
two inputs. -/
lemma convex_comb_bounds (a b w1 w2 : ℚ) (hw1 : 0 ≤ w1) (hw2 : 0 ≤ w2)
    (hs : w1 + w2 = 1) :
    min a b ≤ a * w1 + b * w2 ∧ a * w1 + b * w2 ≤ max a b := by
  have h12 : w2 = 1 - w1 := by linarith
  subst h12
  rcases le_total a b with h | h
  · rw [min_eq_left h, max_eq_right h]
    constructor <;>
      nlinarith [mul_nonneg hw1 (sub_nonneg.mpr h), mul_nonneg hw2 (sub_nonneg.mpr h)]
  · rw [min_eq_right h, max_eq_left h]
    constructor <;>
      nlinarith [mul_nonneg hw1 (sub_nonneg.mpr h), mul_nonneg hw2 (sub_nonneg.mpr h)]

/-- C1: for ml_score and llm_score in [0,1] and any intent value, the score
fused by HybridAnalyzer._fuse_scores lies in the closed interval between
min(ml_score, llm_score) and max(ml_score, llm_score), because every row of
the weight table is a convex combination. -/
theorem fuse_scores_convex (ml llm : ℚ) (lr : LLMResult)
    (hml0 : 0 ≤ ml) (hml1 : ml ≤ 1) (hll0 : 0 ≤ llm) (hll1 : llm ≤ 1) :
    min ml llm ≤ _fuse_scores ml llm lr ∧ _fuse_scores ml llm lr ≤ max ml llm := by
  unfold _fuse_scores
  dsimp only
  split_ifs <;> first
    | exact convex_comb_bounds ml llm 0.4 0.6 (by norm_num) (by norm_num) (by norm_num)
    | exact convex_comb_bounds ml llm 0.7 0.3 (by norm_num) (by norm_num) (by norm_num)
    | exact convex_comb_bounds ml llm 0.6 0.4 (by norm_num) (by norm_num) (by norm_num)

/-- Witness for C1 at ml_score = 1/2, llm_score = 1/4, intent INTENTIONAL. -/
theorem fuse_scores_convex_witness :
    min (1/2 : ℚ) (1/4) ≤ _fuse_scores (1/2) (1/4) ⟨"INTENTIONAL", 1/4, "", []⟩ ∧
    _fuse_scores (1/2) (1/4) ⟨"INTENTIONAL", 1/4, "", []⟩ ≤ max (1/2 : ℚ) (1/4) :=
  fuse_scores_convex (1/2) (1/4) ⟨"INTENTIONAL", 1/4, "", []⟩
    (by norm_num) (by norm_num) (by norm_num) (by norm_num)

/-- C2: HybridAnalyzer._fuse_scores applies the fixed weight table:
0.4/0.6 for INTENTIONAL, 0.7/0.3 for ACCIDENTAL, 0.6/0.4 for every other
intent value. -/
theorem fuse_scores_weight_table (ml llm : ℚ) (lr : LLMResult) :
    (lr.intent = "INTENTIONAL" → _fuse_scores ml llm lr = ml * 0.4 + llm * 0.6) ∧
    (lr.intent = "ACCIDENTAL" → _fuse_scores ml llm lr = ml * 0.7 + llm * 0.3) ∧
    (lr.intent ≠ "INTENTIONAL" → lr.intent ≠ "ACCIDENTAL" →
      _fuse_scores ml llm lr = ml * 0.6 + llm * 0.4) := by
  refine ⟨fun h => ?_, fun h => ?_, fun h1 h2 => ?_⟩
  · simp [_fuse_scores, h]
  · simp [_fuse_scores, h]
  · simp [_fuse_scores, h1, h2]

/-- Witness for C2 at each of the three intent values. -/
theorem fuse_scores_weight_table_witness :
    _fuse_scores 1 0 ⟨"INTENTIONAL", 0, "", []⟩ = 1 * 0.4 + 0 * 0.6 ∧
    _fuse_scores 1 0 ⟨"ACCIDENTAL", 0, "", []⟩ = 1 * 0.7 + 0 * 0.3 ∧
    _fuse_scores 1 0 ⟨"UNCERTAIN", 0, "", []⟩ = 1 * 0.6 + 0 * 0.4 :=
  ⟨(fuse_scores_weight_table 1 0 ⟨"INTENTIONAL", 0, "", []⟩).1 rfl,
   (fuse_scores_weight_table 1 0 ⟨"ACCIDENTAL", 0, "", []⟩).2.1 rfl,
   (fuse_scores_weight_table 1 0 ⟨"UNCERTAIN", 0, "", []⟩).2.2
     (by decide) (by decide)⟩

/-- C3: the hybrid decision bands of HybridAnalyzer._make_decision, with
every boundary comparison strict, so a score of exactly 0.75, 0.45 or 0.25
resolves to the lower band. -/
theorem make_decision_bands (s : ℚ) (intent : String) :
    (0.75 < s → _make_decision s intent = "BLOCK") ∧
    (0.45 < s ∧ s ≤ 0.75 →
      _make_decision s intent = if intent = "ACCIDENTAL" then "BLOCK" else "WARN") ∧
    (0.25 < s ∧ s ≤ 0.45 → _make_decision s intent = "WARN") ∧
    (s ≤ 0.25 → _make_decision s intent = "ALLOW") := by
  unfold _make_decision
  refine ⟨fun h => ?_, fun h => ?_, fun h => ?_, fun h => ?_⟩
  · rw [if_pos h]
  · obtain ⟨h1, h2⟩ := h
    rw [if_neg (by linarith), if_pos h1]
  · obtain ⟨h1, h2⟩ := h
    rw [if_neg (by linarith), if_neg (by linarith), if_pos h1]
  · rw [if_neg (by linarith), if_neg (by linarith), if_neg (by linarith)]

/-- Witness for C3, one concrete score per band, the lower three at the
exact boundary scores. -/
theorem make_decision_bands_witness :
    _make_decision 0.8 "UNCERTAIN" = "BLOCK" ∧
    _make_decision 0.75 "ACCIDENTAL" =
      (if ("ACCIDENTAL" : String) = "ACCIDENTAL" then "BLOCK" else "WARN") ∧
    _make_decision 0.45 "UNCERTAIN" = "WARN" ∧
    _make_decision 0.25 "UNCERTAIN" = "ALLOW" :=
  ⟨(make_decision_bands 0.8 "UNCERTAIN").1 (by norm_num),
   (make_decision_bands 0.75 "ACCIDENTAL").2.1 ⟨by norm_num, le_refl _⟩,
   (make_decision_bands 0.45 "UNCERTAIN").2.2.1 ⟨by norm_num, le_refl _⟩,
   (make_decision_bands 0.25 "UNCERTAIN").2.2.2 (le_refl _)⟩

/-- C4: the effective extract_security_features raises AttributeError on a
resource whose versioning property is a one-element sequence of mappings,
instead of normalizing the sequence to its first element: the second
definition of the function dropped the list-case fix that the shadowed first
definition carried. -/
theorem extract_raises_on_list_versioning :
    extract_security_features versioningListResource =
      Except.error "AttributeError: list object has no attribute get" := rfl

/-- C9: predict_risk decides RISKY exactly when the model predicts class 1,
reports the predicted probability of class 1 as risk_score, and the maximum
class probability as confidence. -/
theorem predict_risk_spec (m : Model) (features : List (String × ℚ)) :
    ((predict_risk m features).decision = "RISKY" ↔
      m.predict (feature_columns.map fun c => features.lookup c) = 1) ∧
    (predict_risk m features).risk_score =
      (m.predict_proba (feature_columns.map fun c => features.lookup c)).2 ∧
    (predict_risk m features).confidence =
      max (m.predict_proba (feature_columns.map fun c => features.lookup c)).1
          (m.predict_proba (feature_columns.map fun c => features.lookup c)).2 := by
  unfold predict_risk
  refine ⟨?_, rfl, rfl⟩
  by_cases h : m.predict (feature_columns.map fun c => features.lookup c) = 1 <;>
    simp [h]

/-- C10: HybridAnalyzer.analyze reads only the first parsed resource; the
later resources of the parse can be replaced by any others without changing
the returned result. -/
theorem analyze_uses_only_first_resource (m : Model)
    (llm : String → String → Features → LLMResult)
    (code : String) (r : Resource) (rest rest2 : List Resource) :
    HybridAnalyzer.analyze m llm code (some (r :: rest)) =
    HybridAnalyzer.analyze m llm code (some (r :: rest2)) := rfl

/-- C5 counterexample: when the provider call raises, the fallback
assessment returned by ContextAnalyzer.analyze carries the intent string
unknown, not UNCERTAIN (in either case convention), refuting the claimed
intent field of the fallback. -/
theorem analyze_fallback_counterexample :
    (ContextAnalyzer.analyze (fun _ => none) (Except.error "boom")).intent = "unknown" ∧
    (ContextAnalyzer.analyze (fun _ => none) (Except.error "boom")).intent ≠ "UNCERTAIN" ∧
    (ContextAnalyzer.analyze (fun _ => none) (Except.error "boom")).intent ≠ "uncertain" := by
  decide

/-- C5 (amended): whenever the provider call raises, ContextAnalyzer.analyze
returns exactly the deterministic fallback assessment — intent unknown,
purpose Could not analyze (LLM unavailable), llm_risk_score 0.5, concerns
[Unable to perform AI analysis], confidence 0.3, and a reasoning string
carrying the error text; the error never propagates. -/
theorem analyze_fallback (pf : String → Option ℚ) (e : String) :
    ContextAnalyzer.analyze pf (Except.error e) =
      { intent := "unknown", purpose := "Could not analyze (LLM unavailable)",
        llm_risk_score := 1/2, concerns := ["Unable to perform AI analysis"],
        reasoning := "LLM analysis failed: " ++ e, confidence := 3/10 } := rfl

/-- C7 counterexample: invoking predict_risk with an extended 10-feature
dict against a 6-feature artifact does not fail at all — it returns the
same ordinary assessment as the truncated 6-feature dict, so the mismatch
is silently absorbed rather than detected. -/
theorem predict_risk_silent_truncation :
    predict_risk constModel extendedTenDict = predict_risk constModel baseSixDict ∧
    predict_risk constModel extendedTenDict =
      { decision := "RISKY", risk_score := 9/10, confidence := 9/10 } := by
  refine ⟨rfl, ?_⟩
  have h : predict_risk constModel extendedTenDict =
      { decision := "RISKY", risk_score := 9/10, confidence := max (1/10 : ℚ) (9/10) } := rfl
  rw [h]
  congr 1
  exact max_eq_right (by norm_num)

/-- C7 (amended): predict_risk never detects a feature-count mismatch: the
DataFrame construction projects the input dict onto the six base columns, so
any two feature dicts agreeing on those six columns — in particular a
10-feature dict and its 6-feature restriction — yield identical results,
without an error. -/
theorem predict_risk_projects_base_columns (m : Model) (f g : List (String × ℚ))
    (h : ∀ c ∈ feature_columns, f.lookup c = g.lookup c) :
    predict_risk m f = predict_risk m g := by
  have hmap : ∀ l : List String, (∀ c ∈ l, f.lookup c = g.lookup c) →
      l.map (fun c => f.lookup c) = l.map (fun c => g.lookup c) := by
    intro l
    induction l with
    | nil => intro _; rfl
    | cons c cs ih =>
      intro hl
      rw [List.map_cons, List.map_cons, hl c (List.mem_cons_self c cs),
          ih fun x hx => hl x (List.mem_cons_of_mem c hx)]
  unfold predict_risk
  rw [hmap feature_columns h]

/-- Witness for C7 at the concrete 10-feature dict and its restriction. -/
theorem predict_risk_projects_base_columns_witness :
    predict_risk constModel extendedTenDict = predict_risk constModel baseSixDict :=
  predict_risk_projects_base_columns constModel extendedTenDict baseSixDict (by decide)

/-- C8 counterexample: on a feature vector with versioning, logging and tags
all missing, the fused problems list is exactly the no-issues marker, so it
does not contain a string for each of the six claimed conditions. -/
theorem list_problems_counterexample :
    _list_problems fvOnlyVersioningMissing = ["✅ No major issues"] ∧
    fvOnlyVersioningMissing.versioning_enabled = 0 ∧
    fvOnlyVersioningMissing.logging_enabled = 0 ∧
    fvOnlyVersioningMissing.has_tags = 0 := by
  decide

/-- C8 (amended): the problems list of the fused result checks only three
conditions — public access set, encryption missing, sensitive naming set —
each mapped to its fixed string, and is exactly the single no-issues marker
when none of the three holds; the six-condition list belongs to
identify_problems on the statistical-only path, which does emit the
versioning / logging / tags strings. -/
theorem problems_characterization (fv : Features) :
    ("🔓 Public access enabled" ∈ _list_problems fv ↔ fv.public_access ≠ 0) ∧
    ("🔒 No encryption" ∈ _list_problems fv ↔ fv.encryption_enabled = 0) ∧
    ("⚠️ Sensitive naming pattern" ∈ _list_problems fv ↔ fv.sensitive_naming ≠ 0) ∧
    (_list_problems fv = ["✅ No major issues"] ↔
      fv.public_access = 0 ∧ fv.encryption_enabled ≠ 0 ∧ fv.sensitive_naming = 0) ∧
    (fv.versioning_enabled = 0 → "📦 Versioning not enabled" ∈ identify_problems fv) ∧
    (fv.logging_enabled = 0 → "📝 Logging not enabled" ∈ identify_problems fv) ∧
    (fv.has_tags = 0 → "🏷️ No tags configured" ∈ identify_problems fv) := by
  by_cases h1 : fv.public_access = 0 <;>
  by_cases h2 : fv.encryption_enabled = 0 <;>
  by_cases h3 : fv.sensitive_naming = 0 <;>
  by_cases h4 : fv.versioning_enabled = 0 <;>
  by_cases h5 : fv.logging_enabled = 0 <;>
  by_cases h6 : fv.has_tags = 0 <;>
    simp_all [_list_problems, identify_problems]

/-- Witness for C8 at the concrete feature vector with versioning, logging
and tags missing. -/
theorem problems_characterization_witness :
    "📦 Versioning not enabled" ∈ identify_problems fvOnlyVersioningMissing ∧
    "📝 Logging not enabled" ∈ identify_problems fvOnlyVersioningMissing ∧
    "🏷️ No tags configured" ∈ identify_problems fvOnlyVersioningMissing :=
  ⟨(problems_characterization fvOnlyVersioningMissing).2.2.2.2.1 (by decide),
   (problems_characterization fvOnlyVersioningMissing).2.2.2.2.2.1 (by decide),
   (problems_characterization fvOnlyVersioningMissing).2.2.2.2.2.2 (by decide)⟩

/-- Every parsing step keeps llm_risk_score and confidence inside [0,1]:
each branch either leaves the field alone, sets the clamped parsed value, or
sets the numeric default. -/
lemma parseLine_bounds (pf : String → Option ℚ) (r : IntentAssessment) (l : List Char)
    (h : (0 ≤ r.llm_risk_score ∧ r.llm_risk_score ≤ 1) ∧
         (0 ≤ r.confidence ∧ r.confidence ≤ 1)) :
    (0 ≤ (parseLine pf r l).llm_risk_score ∧ (parseLine pf r l).llm_risk_score ≤ 1) ∧
    (0 ≤ (parseLine pf r l).confidence ∧ (parseLine pf r l).confidence ≤ 1) := by
  rcases hpf : pf (String.mk (lineValue (pyStrip l))) with _ | q
  · unfold parseLine
    dsimp only
    split_ifs <;> (try rw [hpf]) <;> first
      | exact h
      | exact ⟨⟨by norm_num, by norm_num⟩, h.2⟩
      | exact ⟨h.1, by norm_num, by norm_num⟩
  · unfold parseLine
    dsimp only
    split_ifs <;> (try rw [hpf]) <;> first
      | exact h
      | exact ⟨⟨le_max_left _ _, max_le (by norm_num) (min_le_left _ _)⟩, h.2⟩
      | exact ⟨h.1, le_max_left _ _, max_le (by norm_num) (min_le_left _ _)⟩

/-- Folding the parser keeps llm_risk_score and confidence inside [0,1]. -/
lemma foldl_parseLine_bounds (pf : String → Option ℚ) (ls : List (List Char))
    (r : IntentAssessment)
    (h : (0 ≤ r.llm_risk_score ∧ r.llm_risk_score ≤ 1) ∧
         (0 ≤ r.confidence ∧ r.confidence ≤ 1)) :
    (0 ≤ (ls.foldl (parseLine pf) r).llm_risk_score ∧
      (ls.foldl (parseLine pf) r).llm_risk_score ≤ 1) ∧
    (0 ≤ (ls.foldl (parseLine pf) r).confidence ∧
      (ls.foldl (parseLine pf) r).confidence ≤ 1) := by
  induction ls generalizing r with
  | nil => exact h
  | cons l ls ih => exact ih (parseLine pf r l) (parseLine_bounds pf r l h)

/-- A line that is not a recognized INTENT line leaves the intent field
unchanged. -/
lemma parseLine_intent_keep (pf : String → Option ℚ) (r : IntentAssessment)
    (l : List Char) (h : intentRecognized l = false) :
    (parseLine pf r l).intent = r.intent := by
  unfold intentRecognized at h
  unfold parseLine
  dsimp only
  split_ifs <;> first | rfl | (split <;> rfl) | simp_all

/-- Folding over lines none of which is a recognized INTENT line leaves the
intent field unchanged. -/
lemma foldl_parseLine_intent_keep (pf : String → Option ℚ) (ls : List (List Char))
    (r : IntentAssessment) (h : ∀ l ∈ ls, intentRecognized l = false) :
    (ls.foldl (parseLine pf) r).intent = r.intent := by
  induction ls generalizing r with
  | nil => rfl
  | cons l ls ih =>
    rw [List.foldl_cons,
      ih (parseLine pf r l) (fun x hx => h x (List.mem_cons_of_mem l hx)),
      parseLine_intent_keep pf r l (h l (List.mem_cons_self l ls))]

/-- A line whose RISK_SCORE value does not parse keeps llm_risk_score at the
0.5 default (other lines leave it alone, an unparseable RISK_SCORE line
re-sets it to 0.5). -/
lemma parseLine_score_default (pf : String → Option ℚ) (r : IntentAssessment)
    (l : List Char) (h : riskScoreParsed pf l = false)
    (hr : r.llm_risk_score = 1/2) : (parseLine pf r l).llm_risk_score = 1/2 := by
  unfold riskScoreParsed at h
  rcases hpf : pf (String.mk (lineValue (pyStrip l))) with _ | q
  · unfold parseLine
    dsimp only
    split_ifs <;> simp [hpf, hr]
  · rw [hpf] at h
    simp only [Option.isSome_some, Bool.and_true] at h
    unfold parseLine
    dsimp only
    split_ifs <;> simp_all [hpf, hr]

/-- Folding over lines none of which carries a parseable RISK_SCORE value
keeps llm_risk_score at 0.5. -/
lemma foldl_parseLine_score_default (pf : String → Option ℚ) (ls : List (List Char))
    (r : IntentAssessment) (h : ∀ l ∈ ls, riskScoreParsed pf l = false)
    (hr : r.llm_risk_score = 1/2) :
    (ls.foldl (parseLine pf) r).llm_risk_score = 1/2 := by
  induction ls generalizing r with
  | nil => exact hr
  | cons l ls ih =>
    exact ih (parseLine pf r l) (fun x hx => h x (List.mem_cons_of_mem l hx))
      (parseLine_score_default pf r l (h l (List.mem_cons_self l ls)) hr)

/-- A line whose CONFIDENCE value does not parse keeps confidence at the
0.7 default. -/
lemma parseLine_confidence_default (pf : String → Option ℚ) (r : IntentAssessment)
    (l : List Char) (h : confidenceParsed pf l = false)
    (hr : r.confidence = 7/10) : (parseLine pf r l).confidence = 7/10 := by
  unfold confidenceParsed at h
  rcases hpf : pf (String.mk (lineValue (pyStrip l))) with _ | q
  · unfold parseLine
    dsimp only
    split_ifs <;> simp [hpf, hr]
  · rw [hpf] at h
    simp only [Option.isSome_some, Bool.and_true] at h
    unfold parseLine
    dsimp only
    split_ifs <;> simp_all [hpf, hr]

/-- Folding over lines none of which carries a parseable CONFIDENCE value
keeps confidence at 0.7. -/
lemma foldl_parseLine_confidence_default (pf : String → Option ℚ) (ls : List (List Char))
    (r : IntentAssessment) (h : ∀ l ∈ ls, confidenceParsed pf l = false)
    (hr : r.confidence = 7/10) :
    (ls.foldl (parseLine pf) r).confidence = 7/10 := by
  induction ls generalizing r with
  | nil => exact hr
  | cons l ls ih =>
    exact ih (parseLine pf r l) (fun x hx => h x (List.mem_cons_of_mem l hx))
      (parseLine_confidence_default pf r l (h l (List.mem_cons_self l ls)) hr)

/-- C6 counterexample: on a response with no recognizable INTENT line the
parsed intent defaults to the string unknown, not UNCERTAIN (in either case
convention). -/
theorem parse_response_counterexample :
    (_parse_response (fun _ => none) "hello").intent = "unknown" ∧
    (_parse_response (fun _ => none) "hello").intent ≠ "UNCERTAIN" ∧
    (_parse_response (fun _ => none) "hello").intent ≠ "uncertain" := by
  decide

/-- C6 (amended): for every provider response text and every behaviour of
the float parser, _parse_response keeps llm_risk_score and confidence inside
[0,1] (parsed values are clamped); if no line carries a parseable RISK_SCORE
or CONFIDENCE value the respective default 0.5 / 0.7 survives; and if no
INTENT line is recognized the intent stays at its default, the string
unknown (not UNCERTAIN). -/
theorem parse_response_invariants (pf : String → Option ℚ) (text : String) :
    (0 ≤ (_parse_response pf text).llm_risk_score ∧
      (_parse_response pf text).llm_risk_score ≤ 1 ∧
      0 ≤ (_parse_response pf text).confidence ∧
      (_parse_response pf text).confidence ≤ 1) ∧
    ((∀ l ∈ pyLines text, intentRecognized l = false) →
      (_parse_response pf text).intent = "unknown") ∧
    ((∀ l ∈ pyLines text, riskScoreParsed pf l = false) →
      (_parse_response pf text).llm_risk_score = 1/2) ∧
    ((∀ l ∈ pyLines text, confidenceParsed pf l = false) →
      (_parse_response pf text).confidence = 7/10) := by
  refine ⟨?_, fun h => ?_, fun h => ?_, fun h => ?_⟩
  · have hb := foldl_parseLine_bounds pf (pyLines text) (parseInit text)
      ⟨⟨(by norm_num : (0:ℚ) ≤ 1/2), (by norm_num : (1:ℚ)/2 ≤ 1)⟩,
       (by norm_num : (0:ℚ) ≤ 7/10), (by norm_num : (7:ℚ)/10 ≤ 1)⟩
    exact ⟨hb.1.1, hb.1.2, hb.2.1, hb.2.2⟩
  · exact foldl_parseLine_intent_keep pf (pyLines text) (parseInit text) h
  · exact foldl_parseLine_score_default pf (pyLines text) (parseInit text) h rfl
  · exact foldl_parseLine_confidence_default pf (pyLines text) (parseInit text) h rfl

/-- Witness for C6 on a response whose RISK_SCORE and CONFIDENCE values are
rejected by the float parser and whose INTENT line is absent. -/
theorem parse_response_invariants_witness :
    (_parse_response (fun _ => none) "RISK_SCORE: banana").intent = "unknown" ∧
    (_parse_response (fun _ => none) "RISK_SCORE: banana").llm_risk_score = 1/2 ∧
    (_parse_response (fun _ => none) "RISK_SCORE: banana").confidence = 7/10 :=
  ⟨(parse_response_invariants (fun _ => none) "RISK_SCORE: banana").2.1 (by decide),
   (parse_response_invariants (fun _ => none) "RISK_SCORE: banana").2.2.1 (by decide),
   (parse_response_invariants (fun _ => none) "RISK_SCORE: banana").2.2.2 (by decide)⟩

end CloudSecML
